import Mathlib

/-!
A verification development for the Flash-CDC listener core
(`app/services/sf_pubsub.py` and `app/services/listener_manager.py`).

The Python functions are shallowly embedded as executable Lean definitions:
decoded Avro values become the `PyVal` type, blocking HTTP and gRPC calls
become explicit oracle parameters (one observed outcome per call), and the
supervisor loops become folds over the finite sequence of iteration
outcomes that occurred in a run.
-/

namespace FlashCDC

/-- A decoded (Avro / JSON-ish) Python value, as far as the filter logic in
`SFListener._subscribe_loop` inspects it: `None`, a `bool`, a `str`, a
number (truthiness only), or a `list`. -/
inductive PyVal where
  | pyNone : PyVal
  | pyBool (b : Bool) : PyVal
  | pyStr (s : String) : PyVal
  | pyInt (n : Int) : PyVal
  | pyList (xs : List PyVal) : PyVal

/-- Python `str.lower` on one character (the event fields and configuration
strings the listener handles are ASCII). -/
def py_lower_char (c : Char) : Char :=
  if 'A' ≤ c ∧ c ≤ 'Z' then Char.ofNat (c.toNat + 32) else c

/-- Python `str.lower` (ASCII). -/
def py_lower (s : String) : String := String.mk (s.data.map py_lower_char)

/-- The ASCII whitespace removed by Python `str.strip`. -/
def py_space (c : Char) : Bool :=
  c = ' ' || c = '\t' || c = '\n' || c = '\x0d' || c = '\x0b' || c = '\x0c'

/-- Python `str.strip`: drop leading and trailing whitespace. -/
def py_strip (s : String) : String :=
  String.mk (((s.data.dropWhile py_space).reverse.dropWhile py_space).reverse)

/-- Embeds the `FlashField__c` normalization of `sf_pubsub.py` lines 691-716:
`True`/`False` map to themselves; strings are lowercased and stripped, then
`true/1/yes/y` map to `true` and `false/0/no/n/""` map to `false`, any other
string stays undefined (`none`); `None` stays undefined; any other value goes
through Python truthiness (`bool(x)`). -/
def normalize_flash : PyVal → Option Bool
  | .pyBool b => some b
  | .pyStr s =>
      let t := py_strip (py_lower s)
      if t = "true" ∨ t = "1" ∨ t = "yes" ∨ t = "y" then some true
      else if t = "false" ∨ t = "0" ∨ t = "no" ∨ t = "n" ∨ t = "" then some false
      else none
  | .pyNone => none
  | .pyInt n => some (decide (n ≠ 0))
  | .pyList xs => some (!xs.isEmpty)

/-- Embeds `sf_pubsub.py` lines 679-682: when the raw `FlashField__c` value is
a list, the record at index `idx` uses `raw[idx] if idx < len(raw) else None`;
otherwise every record uses the scalar value. -/
def flash_for (raw : PyVal) (idx : Nat) : PyVal :=
  match raw with
  | .pyList xs => xs.getD idx .pyNone
  | v => v

/-- Embeds `_normalize_commit_ms` (`sf_pubsub.py` lines 215-227). The input is
the result of Python `int(val)` (`none` when the conversion raised). Unit
heuristics: nanoseconds above `10^14`, milliseconds above `10^11`, seconds
above `10^9`, smaller values passed through. -/
def normalize_commit_ms : Option Int → Option Int
  | none => none
  | some x =>
      if x > 10 ^ 14 then some (x / 1000000)
      else if x > 10 ^ 11 then some x
      else if x > 10 ^ 9 then some (x * 1000)
      else some x

/-- The standard base64 alphabet, as used by `base64.b64encode`. -/
def b64chars : List Char :=
  "ABCDEFGHIJKLMNOPQRSTUVWXYZabcdefghijklmnopqrstuvwxyz0123456789+/".toList

/-- Character at index `n` of the base64 alphabet. -/
def b64char (n : Nat) : Char := b64chars.getD n 'A'

/-- Embeds `_b64encode` (`sf_pubsub.py` lines 202-203): standard base64
encoding of a byte string (bytes as `Nat`s below 256). -/
def b64encode : List Nat → String
  | [] => ""
  | [a] =>
      String.mk [b64char (a / 4), b64char (a % 4 * 16), '=', '=']
  | [a, b] =>
      String.mk [b64char (a / 4), b64char (a % 4 * 16 + b / 16),
                 b64char (b % 16 * 4), '=']
  | a :: b :: c :: rest =>
      String.mk [b64char (a / 4), b64char (a % 4 * 16 + b / 16),
                 b64char (b % 16 * 4 + c / 64), b64char (c % 64)]
        ++ b64encode rest

/-- One change event as `_subscribe_loop` sees it after Avro decoding:
the event `replay_id` bytes (`none` when the protobuf field is not a byte
string), the raw `ChangeEventHeader.commitTimestamp` (as the result of
`int(...)`), the header `recordIds`, and the decoded `FlashField__c` value
(`pyNone` when the field is missing). -/
structure SFEvent where
  replay_id : Option (List Nat)
  commitTimestamp : Option Int
  recordIds : List String
  flash_field : PyVal

/-- Result of the per-record dispatch loop (`sf_pubsub.py` lines 676-754):
the indices of the records that were POSTed, and the attempted/succeeded
webhook counters. -/
structure DispatchResult where
  dispatched : List Nat
  attempted : Nat
  succeeded : Nat
deriving DecidableEq, Repr

/-- Whether an HTTP status counts as webhook success (`200 <= s < 300`). -/
def is2xx (s : Nat) : Bool := 200 ≤ s && s < 300

/-- The per-record loop of `_subscribe_loop` (lines 676-754), starting at
index `idx`. `wh i` is the final status returned by `_post_webhook` for the
record at index `i` when a webhook is attempted for it. -/
def dispatch_go (wh : Nat → Nat) (raw : PyVal) : Nat → List String → DispatchResult
  | _, [] => ⟨[], 0, 0⟩
  | idx, _ :: rest =>
      let r := dispatch_go wh raw (idx + 1) rest
      if normalize_flash (flash_for raw idx) = some true then
        ⟨idx :: r.dispatched, r.attempted + 1,
         r.succeeded + (if is2xx (wh idx) then 1 else 0)⟩
      else r

/-- The per-record loop over all `recordIds` of an event. -/
def dispatch_records (wh : Nat → Nat) (raw : PyVal) (ids : List String) : DispatchResult :=
  dispatch_go wh raw 0 ids

/-- The `since`-mode local drop test of `_subscribe_loop` lines 621-622:
both the cutoff and the normalized commit timestamp must be present, and the
timestamp must be strictly below the cutoff. -/
def dropped_by_cutoff (drop_before commit_ms : Option Int) : Bool :=
  match drop_before, commit_ms with
  | some c, some t => decide (t < c)
  | _, _ => false

/-- Externally visible outcome of processing one event in `_subscribe_loop`:
the offset-store write performed for the event (`none` when the stored entry
is left unchanged), the dispatched record indices, and the webhook counters. -/
structure EventOutcome where
  saved : Option (String × Option Int)
  dispatched : List Nat
  attempted : Nat
  succeeded : Nat
deriving DecidableEq, Repr

/-- Embeds the per-event body of `_subscribe_loop` (`sf_pubsub.py` lines
609-789): normalize the commit timestamp; in `since` mode drop old events but
still save the offset; save unconditionally when `recordIds` is empty; else
run the per-record filter/dispatch loop and apply the commit decision of
lines 756-784 (save only when no webhook was attempted or all attempted
webhooks succeeded; note line 759 guards the save with the truthiness of
`rid_b64`, so an absent replay id, or one encoding to `""`, is never saved on
this path). -/
def process_event (drop_before : Option Int) (wh : Nat → Nat) (ev : SFEvent) : EventOutcome :=
  let commit_ms := normalize_commit_ms ev.commitTimestamp
  let save_val : Option (String × Option Int) :=
    ev.replay_id.map (fun r => (b64encode r, commit_ms))
  if dropped_by_cutoff drop_before commit_ms then
    ⟨save_val, [], 0, 0⟩
  else if ev.recordIds.isEmpty then
    ⟨save_val, [], 0, 0⟩
  else
    let rid_b64 : Option String := ev.replay_id.map b64encode
    let d := dispatch_records wh ev.flash_field ev.recordIds
    let saved : Option (String × Option Int) :=
      match rid_b64 with
      | some rb =>
          if rb ≠ "" then
            if d.attempted ≠ 0 then
              if d.succeeded = d.attempted then some (rb, commit_ms) else none
            else some (rb, commit_ms)
          else none
      | none => none
    ⟨saved, d.dispatched, d.attempted, d.succeeded⟩

/-! ## Replay-start selection (`run_salesforce_pubsub`, lines 851-898) -/

/-- The broker replay preset enum (`pb2.LATEST / EARLIEST / CUSTOM`). -/
inductive Preset where
  | latest
  | earliest
  | custom
deriving DecidableEq, Repr

/-- Embeds the `ReplayStart` dataclass of `sf_pubsub.py` lines 361-365. -/
structure ReplayStart where
  preset : Preset
  replay_id : Option (List Nat) := none
  drop_before_ms : Option Int := none
deriving DecidableEq, Repr

/-- Embeds the `ReplayArgs` dataclass (`sf_pubsub.py` lines 53-65). -/
structure ReplayArgs where
  mode : String := "stored"
  replay_id_b64 : Option String := none
  since_minutes : Option Int := none
deriving DecidableEq, Repr

/-- Python truthiness of an optional string (`None` and `""` are falsy). -/
def strTruthy : Option String → Bool
  | some s => !(s = "")
  | none => false

/-- Python truthiness of `replay.since_minutes and replay.since_minutes > 0`
(`0` and `None` are falsy, then the strict comparison). -/
def sinceTruthy : Option Int → Bool
  | some m => decide (m ≠ 0) && decide (m > 0)
  | none => false

/-- Embeds the replay-start computation of `run_salesforce_pubsub`
(`sf_pubsub.py` lines 851-898). `dec` models the external library call
`base64.b64decode` wrapped by `_b64decode` (`none` when decoding raises),
`stored` is the value read from the offset store by `_load_replay_b64`, and
`nowMs` is `_now_ms()`. Returns the chosen `ReplayStart` together with a flag
telling whether `_clear_replay_b64` was invoked on the stored entry. -/
def compute_replay_start (dec : String → Option (List Nat)) (replay : Option ReplayArgs)
    (nowMs : Int) (stored : Option String) : ReplayStart × Bool :=
  let mode := py_lower (match replay with | some r => r.mode | none => "stored")
  if mode = "latest" then
    (⟨.latest, none, none⟩, false)
  else if mode = "earliest" then
    (⟨.earliest, none, none⟩, false)
  else if mode = "custom" && (match replay with
      | some r => strTruthy r.replay_id_b64
      | none => false) then
    match dec ((match replay with | some r => r.replay_id_b64 | none => none).getD "") with
    | some rid => (⟨.custom, some rid, none⟩, false)
    | none => (⟨.latest, none, none⟩, false)
  else if mode = "since" && (match replay with
      | some r => sinceTruthy r.since_minutes
      | none => false) then
    let m := (match replay with | some r => r.since_minutes | none => none).getD 0
    (⟨.earliest, none, some (nowMs - m * 60 * 1000)⟩, false)
  else
    match stored with
    | some s =>
        if s ≠ "" then
          match dec s with
          | some rid => (⟨.custom, some rid, none⟩, false)
          | none => (⟨.earliest, none, none⟩, true)
        else (⟨.earliest, none, none⟩, false)
    | none => (⟨.earliest, none, none⟩, false)

/-! ## Webhook dispatcher (`_post_webhook`, lines 333-356) -/

/-- Result of one `_post_webhook` call: the returned status, how many POST
attempts were made, and the durations slept between attempts (in seconds). -/
structure WebhookRun where
  status : Nat
  attempts : Nat
  sleeps : List ℚ
deriving DecidableEq, Repr

/-- `last_status` after one attempt: the response status when the attempt
produced a response, the previous value when it raised (lines 343-351). -/
def observe (o : Option Nat) (last : Nat) : Nat :=
  match o with
  | some s => s
  | none => last

/-- Whether an attempt's outcome lets `_post_webhook` return early: it
produced a response with a 2xx status (line 345). -/
def attempt_ok : Option Nat → Bool
  | some s => is2xx s
  | none => false

/-- The retry loop of `_post_webhook` (`sf_pubsub.py` lines 339-356).
`outs` lists the outcome of each potential attempt: `some s` when
`requests.post` returned HTTP status `s`, `none` when it raised; its length
is the `max_attempts` bound of the `for` loop (the callers use the default
3). `jit` gives the `random.random()` value drawn before each inter-attempt
sleep, indexed by the attempt just finished; the sleep is
`delay + jit * 0.25` and the delay then doubles, capped at 30 s. The loop
returns as soon as a status in `[200, 300)` is observed, else runs all
attempts and returns the last observed status (`0` if every attempt raised). -/
def post_webhook_go (jit : Nat → ℚ) : List (Option Nat) → ℚ → Nat → Nat → WebhookRun
  | [], _, attempted, last => ⟨last, attempted, []⟩
  | o :: rest, delay, attempted, last =>
      let n := attempted + 1
      let last' := observe o last
      if attempt_ok o then
        ⟨last', n, []⟩
      else
        match rest with
        | [] => ⟨last', n, []⟩
        | _ :: _ =>
            let r := post_webhook_go jit rest (min (delay * 2) 30) n last'
            ⟨r.status, r.attempts, (delay + jit n * (1 / 4)) :: r.sleeps⟩

/-- `_post_webhook` with the initial state of lines 339-340
(`delay = 1.0`, `last_status = 0`). -/
def post_webhook (jit : Nat → ℚ) (outs : List (Option Nat)) : WebhookRun :=
  post_webhook_go jit outs 1 0 0

/-- The base inter-attempt delays of `_post_webhook`: `1.0`, then doubled
with a cap of `30.0` (line 354). -/
def base_delay : Nat → ℚ
  | 0 => 1
  | n + 1 => min (base_delay n * 2) 30

/-- The status `_post_webhook` keeps across attempts: updated on every
attempt that produced a response, untouched when the attempt raised. -/
def last_observed : List (Option Nat) → Nat → Nat
  | [], last => last
  | o :: rest, last => last_observed rest (observe o last)

/-! ## OAuth authentication (`SalesforceAuth.authenticate`, lines 238-305) -/

/-- The token-endpoint JSON payload fields read by `authenticate`. -/
structure TokenPayload where
  access_token : Option String := none
  instance_url : Option String := none
  idUrl : Option String := none
deriving DecidableEq, Repr

/-- Outcome of the token-endpoint POST as `authenticate` observes it:
either `raise_for_status` passed (2xx, with the JSON payload), or a
`requests.HTTPError` with the given status was raised, carrying the parsed
`{error, error_description}` JSON when the body parsed (`none` otherwise)
and the raw body text. -/
inductive TokenHttpResult where
  | success (p : TokenPayload)
  | httpError (status : Nat) (errJson : Option (String × String)) (text : String)
deriving DecidableEq, Repr

/-- How `authenticate` terminates: `FatalConfigError`, the re-raised
transient `requests.HTTPError`, or success with the resolved fields. -/
inductive AuthResult where
  | fatal (msg : String)
  | transientHttp (status : Nat)
  | ok (token : String) (instanceUrl : Option String) (orgId : Option String)
deriving DecidableEq, Repr

/-- The `err_txt` built at lines 268-273: `"{error}:{error_description}"`
when the error body parsed as JSON, else the raw response text. -/
def err_txt : Option (String × String) → String → String
  | some (e, d), _ => e ++ ":" ++ d
  | none, t => t

/-- Python's `in` operator on strings: the needle occurs as a contiguous
substring of the haystack. -/
def pyIn (needle hay : String) : Bool :=
  (hay.data.tails.filter (fun t => needle.data.isPrefixOf t)) ≠ []

/-- The My-Domain guidance appended for `client_credentials` failures whose
body mentions "not supported" (`sf_pubsub.py` lines 277-282). -/
def myDomainHint : String :=
  "For client_credentials grant type, you may need to use your Salesforce custom domain URL instead of https://login.salesforce.com in the Login URL field."

/-- Embeds the error classification of `SalesforceAuth.authenticate`
(`sf_pubsub.py` lines 263-305). `grantType` is `cfg.auth_grant_type`,
`resp` the token-endpoint outcome, `ident` the identity-endpoint outcome
(`Except.error` when its `raise_for_status` raised), used only when the
token payload carries an `id` URL. -/
def authenticate (grantType : String) (resp : TokenHttpResult)
    (ident : Except String (Option String)) : AuthResult :=
  match resp with
  | .httpError s j t =>
      let txt := err_txt j t
      if s = 400 ∨ s = 401 ∨ s = 403 then
        if grantType = "client_credentials" && pyIn "not supported" (py_lower txt) then
          .fatal ("OAuth failed (" ++ toString s ++ "): " ++ txt ++ "\n" ++ myDomainHint)
        else
          .fatal ("OAuth failed (" ++ toString s ++ "): " ++ txt)
      else .transientHttp s
  | .success p =>
      match p.access_token with
      | none => .fatal "OAuth succeeded but no access_token returned"
      | some tok =>
          match p.idUrl with
          | some _ =>
              match ident with
              | .error m => .fatal ("Identity call failed: " ++ m)
              | .ok org => .ok tok p.instance_url org
          | none => .ok tok p.instance_url none

/-! ## SFListener.start reconnect loop (`sf_pubsub.py`, lines 438-501)

`SFListener.start` runs `authenticate / connect / subscribe` in a loop. We
embed one run of that loop as a fold over the finite sequence of iteration
outcomes: what the body's `try` block did on each pass. The essential fact,
visible in lines 456-460, is that `FatalConfigError` is caught *inside* this
loop (the status dict is updated and the loop breaks), so `start` itself
returns normally; the exception never propagates to the caller. -/

/-- Outcome of one pass of the `while` body of `SFListener.start`. -/
inductive ListenIter where
  | fatalErr (msg : String)
  | rpcInvalidReplay (msg : String)
  | rpcFailFast (msg : String)
  | rpcOther (msg : String)
  | otherErr (msg : String)
  | subscribeEnded
deriving DecidableEq, Repr

/-- The fragment of the `SFListener.status` dict that the supervisor and the
error handling touch. -/
structure SFState where
  fatal : Bool := false
  lastError : Option String := none
  running : Bool := true
deriving DecidableEq, Repr

/-- One pass of the `SFListener.start` loop body (`sf_pubsub.py` lines
442-499); the `Bool` is whether the loop breaks. `FatalConfigError` (line
456) and fail-fast gRPC codes (line 481) record the error, set the `fatal`
flag and break; an invalid-replay-id gRPC error, other gRPC errors and
generic exceptions record the error and reconnect; a subscribe loop that
ends without the stop signal reconnects as well. -/
def listen_step (st : SFState) : ListenIter → SFState × Bool
  | .fatalErr m => ({st with lastError := some m, fatal := true}, true)
  | .rpcFailFast m => ({st with lastError := some m, fatal := true}, true)
  | .rpcInvalidReplay m => ({st with lastError := some m}, false)
  | .rpcOther m => ({st with lastError := some m}, false)
  | .otherErr m => ({st with lastError := some m}, false)
  | .subscribeEnded => (st, false)

/-- A run of the `SFListener.start` loop over the iteration outcomes that
occurred; on exit (break, or stop signal modeled as the end of the list)
`status["running"]` is set to `False` (line 501). `start` always returns
this state normally: no exception escapes the loop. -/
def listen_run (st : SFState) : List ListenIter → SFState
  | [] => {st with running := false}
  | it :: rest =>
      let r := listen_step st it
      if r.2 then {r.1 with running := false} else listen_run r.1 rest

/-! ## Listener._runner supervisor loop (`listener_manager.py`, lines 94-177) -/

/-- One pass of the `Listener._runner` loop: either loading the client row
failed (row missing or inactive, raising `RuntimeError` before the listener
starts; `reloadOk` tells whether the reload inside the exception handler
finds the row), or the row loaded and `run_salesforce_pubsub` ran an
`SFListener` whose loop iterations are given. `run_salesforce_pubsub`
returns normally in the latter case, because `SFListener.start` swallows
every error (including `FatalConfigError`) internally. -/
inductive RunnerIter where
  | loadFail (reloadOk : Bool)
  | runListener (iters : List ListenIter)

/-- The in-memory supervisor state (`ListenerState` plus the email flag of
`listener_manager.py` line 38, plus bookkeeping the claims observe: how many
error notifications were actually dispatched, and the final internal state
of the last `SFListener` run). -/
structure SupState where
  status : String := "starting"
  lastError : Option String := none
  failCount : Nat := 0
  emailSent : Bool := false
  emailsDispatched : Nat := 0
  sfFinal : Option SFState := none
deriving DecidableEq, Repr

/-- One pass of the `Listener._runner` `while` body (`listener_manager.py`
lines 100-173); the `Bool` is whether the loop breaks. A load failure lands
in the generic `except Exception` handler: status `error`, `fail_count`
incremented, and on the first failure the email flag is set *before* the
client row is reloaded — the notification itself is dispatched only if that
reload finds the row. A successful `run_salesforce_pubsub` call first resets
`last_error`/`fail_count`, sets status `running`, and on return breaks as a
graceful stop (line 118). The `except FatalConfigError` handler of lines
122-146 is unreachable from here because `run_salesforce_pubsub` never
raises it. -/
def runner_step (st : SupState) : RunnerIter → SupState × Bool
  | .loadFail reloadOk =>
      let st := {st with status := "error",
                         lastError := some "Client not found or not active",
                         failCount := st.failCount + 1}
      if !st.emailSent && st.failCount = 1 then
        let st := {st with emailSent := true}
        if reloadOk then
          ({st with emailsDispatched := st.emailsDispatched + 1}, false)
        else (st, false)
      else (st, false)
  | .runListener iters =>
      let st := {st with lastError := none, failCount := 0, status := "running",
                         sfFinal := some (listen_run {} iters)}
      (st, true)

/-- The `Listener._runner` loop over the iteration outcomes that occurred
(the end of the list models the stop signal). -/
def runner_go (st : SupState) : List RunnerIter → SupState
  | [] => st
  | it :: rest =>
      let r := runner_step st it
      if r.2 then r.1 else runner_go r.1 rest

/-- A full `Listener._runner` run, including the final stanza of lines
175-177: the status is forced to `stopped` unless it is `error`. -/
def runner_run (iters : List RunnerIter) : SupState :=
  let st := runner_go {} iters
  if st.status ≠ "error" then {st with status := "stopped"} else st

/-! ## ListenerManager.start (`listener_manager.py`, lines 30-64 and 191-200) -/

/-- The replay hint dict carried by the control API (`replay.get(...)`
fields read by `Listener.set_replay`). -/
structure ReplayDict where
  mode : Option String := none
  replay_id_b64 : Option String := none
  since_minutes : Option Int := none
deriving DecidableEq, Repr

/-- `replay.get("mode") or "stored"`: `None` and `""` fall back. -/
def mode_or_stored : Option String → String
  | some m => if m = "" then "stored" else m
  | none => "stored"

/-- The in-memory `Listener` object as `ListenerManager.start` touches it:
whether its task exists and is not done, how many tasks were ever spawned
for it, the stored replay hint, its state's status, and the email flag. -/
structure ListenerM where
  running : Bool := false
  spawnCount : Nat := 0
  replay : Option ReplayArgs := none
  status : String := "stopped"
  emailSent : Bool := false
deriving DecidableEq, Repr

/-- Embeds `Listener.set_replay` (`listener_manager.py` lines 43-51): a
dict always overwrites the hint (building `ReplayArgs` with the `or
"stored"` default for the mode), `None` resets it to `None`. -/
def set_replay (l : ListenerM) (replay : Option ReplayDict) : ListenerM :=
  match replay with
  | some d => {l with replay := some ⟨mode_or_stored d.mode, d.replay_id_b64, d.since_minutes⟩}
  | none => {l with replay := none}

/-- Embeds `Listener.start` (`listener_manager.py` lines 53-64): a no-op
when the task is running, otherwise resets state to `starting`, clears the
email flag and spawns a new runner task. -/
def listener_start (l : ListenerM) : ListenerM :=
  if l.running then l
  else {l with status := "starting", emailSent := false,
               running := true, spawnCount := l.spawnCount + 1}

/-- The manager registry, client id to `Listener`. -/
def MgrState : Type := Nat → Option ListenerM

/-- Embeds `ListenerManager.start` (`listener_manager.py` lines 191-200):
get or create the `Listener`, always `set_replay`, and start a task only
when none is running. -/
def manager_start (st : MgrState) (cid : Nat) (replay : Option ReplayDict) : MgrState :=
  let l0 := (st cid).getD {}
  let l1 := set_replay l0 replay
  let l2 := if l1.running then l1 else listener_start l1
  fun c => if c = cid then some l2 else st c

/-- The stored replay hint of client `cid`, as seen by the next
(re)connection. -/
def replay_hint_at (st : MgrState) (cid : Nat) : Option (Option ReplayArgs) :=
  (st cid).map (fun l => l.replay)

/-! ## Helper lemmas -/

/-- Membership in the dispatched indices of the per-record loop: exactly
the indices in range whose filter value normalizes to `true`. -/
theorem dispatch_go_mem (wh : Nat → Nat) (raw : PyVal) (ids : List String) :
    ∀ (i0 j : Nat),
      j ∈ (dispatch_go wh raw i0 ids).dispatched ↔
        (i0 ≤ j ∧ j < i0 + ids.length ∧ normalize_flash (flash_for raw j) = some true) := by
  induction ids with
  | nil => intro i0 j; simp [dispatch_go]; omega
  | cons a rest ih =>
      intro i0 j
      by_cases h : normalize_flash (flash_for raw i0) = some true
      · simp only [dispatch_go, if_pos h, List.mem_cons, ih (i0 + 1) j, List.length_cons]
        constructor
        · rintro (rfl | ⟨h1, h2, h3⟩)
          · exact ⟨Nat.le_refl _, by omega, h⟩
          · exact ⟨by omega, by omega, h3⟩
        · rintro ⟨h1, h2, h3⟩
          rcases Nat.eq_or_lt_of_le h1 with rfl | hlt
          · exact Or.inl rfl
          · exact Or.inr ⟨hlt, by omega, h3⟩
      · simp only [dispatch_go, if_neg h, ih (i0 + 1) j, List.length_cons]
        constructor
        · rintro ⟨h1, h2, h3⟩
          exact ⟨by omega, by omega, h3⟩
        · rintro ⟨h1, h2, h3⟩
          rcases Nat.eq_or_lt_of_le h1 with rfl | hlt
          · exact absurd h3 h
          · exact ⟨hlt, by omega, h3⟩

/-- In the per-record loop, the succeeded counter never exceeds the
attempted counter. -/
theorem dispatch_go_succeeded_le (wh : Nat → Nat) (raw : PyVal) (ids : List String) :
    ∀ i0, (dispatch_go wh raw i0 ids).succeeded ≤ (dispatch_go wh raw i0 ids).attempted := by
  induction ids with
  | nil => intro i0; simp [dispatch_go]
  | cons a rest ih =>
      intro i0
      by_cases h : normalize_flash (flash_for raw i0) = some true
      · simp only [dispatch_go, if_pos h]
        have := ih (i0 + 1)
        split <;> omega
      · simpa only [dispatch_go, if_neg h] using ih (i0 + 1)

/-- Base64-encoding a non-empty byte string yields a non-empty string. -/
theorem b64encode_ne_empty (l : List Nat) (h : l ≠ []) : b64encode l ≠ "" := by
  match l with
  | [] => exact absurd rfl h
  | [a] =>
      intro hc
      have := congrArg String.data hc
      simp [b64encode] at this
  | [a, b] =>
      intro hc
      have := congrArg String.data hc
      simp [b64encode] at this
  | a :: b :: c :: rest =>
      intro hc
      have := congrArg String.data hc
      simp [b64encode, String.data_append] at this

/-! ## Claims -/

/-- Claim C5: while a `drop_before_ms` cutoff is set, an event whose
normalized commit timestamp is strictly below the cutoff dispatches no
webhook for any of its records, yet its replay id (with the normalized
timestamp) is written to the offset store. -/
theorem c5_since_mode_skip (c : Int) (wh : Nat → Nat) (ev : SFEvent) (t : Int) (rid : List Nat)
    (hnorm : normalize_commit_ms ev.commitTimestamp = some t) (hlt : t < c)
    (hrid : ev.replay_id = some rid) :
    process_event (some c) wh ev = ⟨some (b64encode rid, some t), [], 0, 0⟩ := by
  have hdrop : dropped_by_cutoff (some c) (some t) = true := by
    simp [dropped_by_cutoff, hlt]
  simp [process_event, hnorm, hdrop, hrid]

/-- Witness for C5 at a concrete skipped event. -/
theorem c5_since_mode_skip_witness :
    normalize_commit_ms (some 50) = some 50 ∧ (50 : Int) < 100 ∧
    process_event (some 100) (fun _ => 200) ⟨some [1], some 50, ["A"], .pyBool true⟩ =
      ⟨some ("AQ==", some 50), [], 0, 0⟩ :=
  ⟨by decide, by decide,
    (c5_since_mode_skip 100 (fun _ => 200) ⟨some [1], some 50, ["A"], .pyBool true⟩ 50 [1]
      (by decide) (by decide) rfl).trans (by decide)⟩

/-- Claim C3: for an event that is not discarded by the `since` cutoff, a
webhook POST is issued for the record at index `idx` iff its
`FlashField__c` value normalizes to `true` (booleans map to themselves;
strings `true/1/yes/y` and `false/0/no/n/""` after lowercasing and
stripping; other strings and `None`/missing are undefined; other values go
through truthiness; only exactly-`true` is dispatched). -/
theorem c3_filtering_soundness (drop : Option Int) (wh : Nat → Nat) (ev : SFEvent) (idx : Nat)
    (hdrop : dropped_by_cutoff drop (normalize_commit_ms ev.commitTimestamp) = false)
    (hidx : idx < ev.recordIds.length) :
    idx ∈ (process_event drop wh ev).dispatched ↔
      normalize_flash (flash_for ev.flash_field idx) = some true := by
  have hne : ev.recordIds.isEmpty = false := by
    cases h : ev.recordIds with
    | nil => rw [h] at hidx; simp at hidx
    | cons a l => simp [h]
  rw [show (process_event drop wh ev).dispatched =
      (dispatch_records wh ev.flash_field ev.recordIds).dispatched by
    simp [process_event, hdrop, hne]]
  rw [dispatch_records, dispatch_go_mem]
  constructor
  · rintro ⟨_, _, h3⟩; exact h3
  · intro h3; exact ⟨Nat.zero_le _, by omega, h3⟩

/-- Witness for C3 at a concrete event: index 0 (filter `true`) is
dispatched, as the equivalence demands. -/
theorem c3_filtering_soundness_witness :
    dropped_by_cutoff none (normalize_commit_ms (some 1700000000000)) = false ∧ 0 < 2 ∧
    (0 ∈ (process_event none (fun _ => 200)
        ⟨some [1], some 1700000000000, ["A", "B"],
          .pyList [.pyBool true, .pyBool false]⟩).dispatched ↔
      normalize_flash (flash_for (.pyList [.pyBool true, .pyBool false]) 0) = some true) :=
  ⟨rfl, by decide,
    c3_filtering_soundness none (fun _ => 200)
      ⟨some [1], some 1700000000000, ["A", "B"], .pyList [.pyBool true, .pyBool false]⟩ 0
      rfl (by decide)⟩

/-- Claim C9 (implicit): when `FlashField__c` decodes to a list shorter
than `recordIds`, every record index beyond the end of the list gets filter
value `None` (undefined) and is not dispatched; the per-record loop guards
the index, so no exception is possible (the embedding is total). -/
theorem c9_misaligned_filter_list (drop : Option Int) (wh : Nat → Nat) (ev : SFEvent)
    (xs : List PyVal) (idx : Nat) (hf : ev.flash_field = .pyList xs)
    (hlen : xs.length ≤ idx) (hidx : idx < ev.recordIds.length) :
    flash_for ev.flash_field idx = .pyNone ∧ idx ∉ (process_event drop wh ev).dispatched := by
  have hval : flash_for ev.flash_field idx = .pyNone := by
    rw [hf]
    simp [flash_for, List.getD, List.getElem?_eq_none hlen]
  refine ⟨hval, ?_⟩
  by_cases hd : dropped_by_cutoff drop (normalize_commit_ms ev.commitTimestamp) = true
  · simp [process_event, hd]
  · have hne : ev.recordIds.isEmpty = false := by
      cases h : ev.recordIds with
      | nil => rw [h] at hidx; simp at hidx
      | cons a l => simp [h]
    rw [show (process_event drop wh ev).dispatched =
        (dispatch_records wh ev.flash_field ev.recordIds).dispatched by
      simp [process_event, eq_false_of_ne_true hd, hne]]
    rw [dispatch_records, dispatch_go_mem]
    rintro ⟨_, _, h3⟩
    rw [hval] at h3
    simp [normalize_flash] at h3

/-- Witness for C9: a two-record event with a one-element filter list; the
out-of-range index 1 is undefined and skipped. -/
theorem c9_misaligned_filter_list_witness :
    1 ≤ 1 ∧ 1 < 2 ∧
    (flash_for (PyVal.pyList [.pyBool true]) 1 = .pyNone ∧
      1 ∉ (process_event none (fun _ => 200)
        ⟨some [1], some 1700000000000, ["A", "B"], .pyList [.pyBool true]⟩).dispatched) :=
  ⟨by decide, by decide,
    c9_misaligned_filter_list none (fun _ => 200)
      ⟨some [1], some 1700000000000, ["A", "B"], .pyList [.pyBool true]⟩
      [.pyBool true] 1 rfl (by decide) (by decide)⟩

/-- Claim C1 counterexample: an event whose replay id is present but is the
empty byte string (protobuf `bytes` default), with one record filtered out,
attempts no webhook — yet nothing is stored, because line 759 of
`sf_pubsub.py` guards the record-path store with the truthiness of
`rid_b64` and `_b64encode(b"") == ""` is falsy. The claim as stated says
the replay id is stored whenever no webhook was attempted. -/
theorem c1_commit_decision_counterexample :
    (⟨some [], some 1700000000000, ["A"], .pyBool false⟩ : SFEvent).replay_id = some [] ∧
    (process_event none (fun _ => 200)
      ⟨some [], some 1700000000000, ["A"], .pyBool false⟩).attempted = 0 ∧
    (process_event none (fun _ => 200)
      ⟨some [], some 1700000000000, ["A"], .pyBool false⟩).saved = none :=
  ⟨rfl, by decide, by decide⟩

/-- Claim C1 (amended): for every event whose replay id is present and
non-empty, the commit decision is as claimed — no webhook attempted (all
records filtered, or `recordIds` empty, or the event skipped by the `since`
cutoff) stores the replay id; all attempted webhooks 2xx stores it; any
non-2xx attempted webhook leaves the offset store entry unchanged. -/
theorem c1_commit_decision (drop : Option Int) (wh : Nat → Nat) (ev : SFEvent) (rid : List Nat)
    (hrid : ev.replay_id = some rid) (hne : rid ≠ []) :
    (process_event drop wh ev).succeeded ≤ (process_event drop wh ev).attempted ∧
    ((process_event drop wh ev).attempted = 0 →
      (process_event drop wh ev).saved =
        some (b64encode rid, normalize_commit_ms ev.commitTimestamp)) ∧
    ((process_event drop wh ev).succeeded = (process_event drop wh ev).attempted →
      (process_event drop wh ev).saved =
        some (b64encode rid, normalize_commit_ms ev.commitTimestamp)) ∧
    ((process_event drop wh ev).succeeded < (process_event drop wh ev).attempted →
      (process_event drop wh ev).saved = none) := by
  have hb : b64encode rid ≠ "" := b64encode_ne_empty rid hne
  by_cases hd : dropped_by_cutoff drop (normalize_commit_ms ev.commitTimestamp) = true
  · simp [process_event, hd, hrid]
  · by_cases he : ev.recordIds.isEmpty
    · simp [process_event, eq_false_of_ne_true hd, he, hrid]
    · have hse := dispatch_go_succeeded_le wh ev.flash_field ev.recordIds 0
      have hmain : process_event drop wh ev =
          ⟨if (dispatch_records wh ev.flash_field ev.recordIds).attempted ≠ 0 then
              (if (dispatch_records wh ev.flash_field ev.recordIds).succeeded =
                  (dispatch_records wh ev.flash_field ev.recordIds).attempted then
                some (b64encode rid, normalize_commit_ms ev.commitTimestamp)
              else none)
            else some (b64encode rid, normalize_commit_ms ev.commitTimestamp),
           (dispatch_records wh ev.flash_field ev.recordIds).dispatched,
           (dispatch_records wh ev.flash_field ev.recordIds).attempted,
           (dispatch_records wh ev.flash_field ev.recordIds).succeeded⟩ := by
        simp [process_event, eq_false_of_ne_true hd, he, hrid, hb]
      rw [dispatch_records] at hmain
      have hA : (process_event drop wh ev).attempted =
          (dispatch_go wh ev.flash_field 0 ev.recordIds).attempted := by rw [hmain]
      have hS : (process_event drop wh ev).succeeded =
          (dispatch_go wh ev.flash_field 0 ev.recordIds).succeeded := by rw [hmain]
      refine ⟨?_, ?_, ?_, ?_⟩
      · rw [hS, hA]; exact hse
      · intro h0
        rw [hA] at h0
        rw [hmain]
        simp [h0]
      · intro hsa
        rw [hS, hA] at hsa
        rw [hmain]
        by_cases h0 : (dispatch_go wh ev.flash_field 0 ev.recordIds).attempted = 0
        · simp [h0]
        · simp [h0, hsa]
      · intro hlt
        rw [hS, hA] at hlt
        rw [hmain]
        have h0 : (dispatch_go wh ev.flash_field 0 ev.recordIds).attempted ≠ 0 := by omega
        have hns : ¬((dispatch_go wh ev.flash_field 0 ev.recordIds).succeeded =
            (dispatch_go wh ev.flash_field 0 ev.recordIds).attempted) := by omega
        simp [h0, hns]

/-- Witness for C1 at a concrete event (one record dispatched, webhook 200):
all attempted webhooks succeeded and the replay id is stored. -/
theorem c1_commit_decision_witness :
    ([1] : List Nat) ≠ [] ∧
    (process_event none (fun _ => 200)
        ⟨some [1], some 1700000000000, ["A", "B"],
          .pyList [.pyBool true, .pyBool false]⟩).succeeded =
      (process_event none (fun _ => 200)
        ⟨some [1], some 1700000000000, ["A", "B"],
          .pyList [.pyBool true, .pyBool false]⟩).attempted ∧
    (process_event none (fun _ => 200)
        ⟨some [1], some 1700000000000, ["A", "B"],
          .pyList [.pyBool true, .pyBool false]⟩).saved =
      some ("AQ==", some 1700000000000) :=
  ⟨by decide, by decide,
    ((c1_commit_decision none (fun _ => 200)
        ⟨some [1], some 1700000000000, ["A", "B"], .pyList [.pyBool true, .pyBool false]⟩
        [1] rfl (by decide)).2.2.1 (by decide)).trans (by decide)⟩

/-- Claim C4: replay-start selection matches the table in §4.8 of the spec
for every mode — `latest` and `earliest` pick the matching preset; `custom`
with a provided id picks CUSTOM with the decoded bytes, falling back to
LATEST when decoding fails; `since` with positive minutes picks EARLIEST
with `drop_before_ms = now - minutes * 60000`; the default `stored` mode
picks CUSTOM from a present-and-valid stored id, EARLIEST otherwise,
clearing the stored entry exactly when it is present and invalid. -/
theorem c4_replay_start_selection (dec : String → Option (List Nat)) (nowMs : Int)
    (stored : Option String) (rib : Option String) (sm : Option Int) :
    (compute_replay_start dec (some ⟨"latest", rib, sm⟩) nowMs stored =
      (⟨.latest, none, none⟩, false)) ∧
    (compute_replay_start dec (some ⟨"earliest", rib, sm⟩) nowMs stored =
      (⟨.earliest, none, none⟩, false)) ∧
    (∀ b rid, b ≠ "" → dec b = some rid →
      compute_replay_start dec (some ⟨"custom", some b, sm⟩) nowMs stored =
        (⟨.custom, some rid, none⟩, false)) ∧
    (∀ b, b ≠ "" → dec b = none →
      compute_replay_start dec (some ⟨"custom", some b, sm⟩) nowMs stored =
        (⟨.latest, none, none⟩, false)) ∧
    (∀ m : Int, 0 < m →
      compute_replay_start dec (some ⟨"since", rib, some m⟩) nowMs stored =
        (⟨.earliest, none, some (nowMs - m * 60 * 1000)⟩, false)) ∧
    (∀ s rid, s ≠ "" → dec s = some rid →
      compute_replay_start dec none nowMs (some s) = (⟨.custom, some rid, none⟩, false)) ∧
    (∀ s, s ≠ "" → dec s = none →
      compute_replay_start dec none nowMs (some s) = (⟨.earliest, none, none⟩, true)) ∧
    (compute_replay_start dec none nowMs none = (⟨.earliest, none, none⟩, false)) ∧
    (compute_replay_start dec none nowMs (some "") = (⟨.earliest, none, none⟩, false)) := by
  refine ⟨?_, ?_, ?_, ?_, ?_, ?_, ?_, ?_, ?_⟩
  · simp [compute_replay_start, show py_lower "latest" = "latest" from by decide]
  · simp [compute_replay_start, show py_lower "earliest" = "earliest" from by decide]
  · intro b rid hb hdec
    simp [compute_replay_start, show py_lower "custom" = "custom" from by decide,
      strTruthy, hb, hdec]
  · intro b hb hdec
    simp [compute_replay_start, show py_lower "custom" = "custom" from by decide,
      strTruthy, hb, hdec]
  · intro m hm
    simp [compute_replay_start, show py_lower "since" = "since" from by decide,
      sinceTruthy, hm, hm.ne']
  · intro s rid hs hdec
    simp [compute_replay_start, show py_lower "stored" = "stored" from by decide, hs, hdec]
  · intro s hs hdec
    simp [compute_replay_start, show py_lower "stored" = "stored" from by decide, hs, hdec]
  · simp [compute_replay_start, show py_lower "stored" = "stored" from by decide]
  · simp [compute_replay_start, show py_lower "stored" = "stored" from by decide]

/-- Witness for C4: the `stored` default with an invalid stored id falls
back to EARLIEST and clears the entry. -/
theorem c4_replay_start_selection_witness :
    ("!!!not-base64" : String) ≠ "" ∧
    compute_replay_start (fun _ => none) none 0 (some "!!!not-base64") =
      (⟨.earliest, none, none⟩, true) :=
  ⟨by decide,
    (c4_replay_start_selection (fun _ => none) 0 (some "!!!not-base64") none none).2.2.2.2.2.2.1
      "!!!not-base64" (by decide) rfl⟩

/-- Claim C7 counterexample: HTTP 404 is a 4xx error response from the
token endpoint, yet `authenticate` re-raises the transient `HTTPError`
rather than `FatalConfigError`: line 274 of `sf_pubsub.py` treats only
400, 401 and 403 as fatal. -/
theorem c7_oauth_classification_counterexample :
    authenticate "password" (.httpError 404 none "Not Found") (.ok none) =
      .transientHttp 404 ∧
    (∀ m, authenticate "password" (.httpError 404 none "Not Found") (.ok none) ≠ .fatal m) :=
  ⟨by decide, by intro m h; simp [authenticate] at h⟩

/-- Claim C7 (amended): a token-endpoint error response with status 400,
401 or 403 raises `FatalConfigError` carrying the parsed
`error:error_description` text (with the My-Domain hint appended when the
grant is `client_credentials` and the body mentions "not supported"); an
error response with any other status re-raises the transient `HTTPError`;
and a successful response whose JSON lacks `access_token` raises
`FatalConfigError`. -/
theorem c7_oauth_fatal_classification (g : String) (j : Option (String × String)) (t : String)
    (ident : Except String (Option String)) :
    (∀ s : Nat, (s = 400 ∨ s = 401 ∨ s = 403) →
      authenticate g (.httpError s j t) ident =
        (if g = "client_credentials" && pyIn "not supported" (py_lower (err_txt j t)) then
          .fatal ("OAuth failed (" ++ toString s ++ "): " ++ err_txt j t ++ "\n" ++ myDomainHint)
        else .fatal ("OAuth failed (" ++ toString s ++ "): " ++ err_txt j t))) ∧
    (∀ s : Nat, 400 ≤ s → ¬(s = 400 ∨ s = 401 ∨ s = 403) →
      authenticate g (.httpError s j t) ident = .transientHttp s) ∧
    (∀ iu idu, authenticate g (.success ⟨none, iu, idu⟩) ident =
      .fatal "OAuth succeeded but no access_token returned") := by
  refine ⟨?_, ?_, ?_⟩
  · intro s hs
    simp only [authenticate, if_pos hs]
  · intro s _ hs
    simp only [authenticate, if_neg hs]
  · intro iu idu
    rfl

/-- Witness for C7: a concrete 401 `client_credentials` failure mentioning
"not supported" produces the fatal message with the My-Domain hint. -/
theorem c7_oauth_fatal_classification_witness :
    ((401 : Nat) = 400 ∨ (401 : Nat) = 401 ∨ (401 : Nat) = 403) ∧
    authenticate "client_credentials"
        (.httpError 401 (some ("invalid_grant", "grant type not supported")) "") (.ok none) =
      .fatal ("OAuth failed (401): invalid_grant:grant type not supported\n" ++ myDomainHint) :=
  ⟨by decide,
    ((c7_oauth_fatal_classification "client_credentials"
        (some ("invalid_grant", "grant type not supported")) "" (.ok none)).1 401
        (by decide)).trans (by set_option maxRecDepth 10000 in decide)⟩

/-- Claim C2 evidence of the code bug: a supervisor run whose listener
raises `FatalConfigError` on its first iteration (e.g. OAuth 401).
`SFListener.start` catches the error internally (setting its own `fatal`
flag and `last_error`) and returns normally, so `run_salesforce_pubsub`
returns, `Listener._runner` breaks as a graceful stop, and the supervisor
ends with status `stopped`, a cleared `last_error`, and zero error
notifications — not status `error` with one notification as the spec
demands. The `except FatalConfigError` handler of `listener_manager.py`
lines 122-146 is unreachable. -/
theorem c2_fatal_config_error_swallowed :
    runner_run [.runListener [.fatalErr "OAuth failed (401): invalid_client"]] =
      ⟨"stopped", none, 0, false, 0,
        some ⟨true, some "OAuth failed (401): invalid_client", false⟩⟩ := by
  decide

/-- Claim C10 (implicit): every `ListenerManager.start` call overwrites the
stored replay hint with that call's argument — the parsed dict when one is
given, `None` when none is, so an earlier hint never survives into the next
call. -/
theorem c10_replay_hint_not_sticky (st : MgrState) (cid : Nat) (r : Option ReplayDict) :
    replay_hint_at (manager_start st cid r) cid =
      some (r.map fun d => ⟨mode_or_stored d.mode, d.replay_id_b64, d.since_minutes⟩) := by
  cases r with
  | none =>
      simp [replay_hint_at, manager_start, set_replay, listener_start]
      split_ifs <;> rfl
  | some d =>
      simp [replay_hint_at, manager_start, set_replay, listener_start]
      split_ifs <;> rfl

/-- Claim C8: `start` is idempotent. From a state where the client has no
supervisor or a non-running one, the first `start` spawns exactly one task
(and leaves it running); the second `start` spawns nothing — it returns the
same listener with only the replay hint overwritten — and no other client's
entry is touched. -/
theorem c8_idempotent_start (st : MgrState) (cid : Nat) (r1 r2 : Option ReplayDict)
    (h : st cid = none ∨ ∃ l, st cid = some l ∧ l.running = false) :
    ∃ l1 l2,
      manager_start st cid r1 cid = some l1 ∧
      manager_start (manager_start st cid r1) cid r2 cid = some l2 ∧
      l1.running = true ∧
      l1.spawnCount = (match st cid with | none => 0 | some l => l.spawnCount) + 1 ∧
      l2 = {l1 with replay := (r2.map
        (fun d => ⟨mode_or_stored d.mode, d.replay_id_b64, d.since_minutes⟩))} ∧
      (∀ c, c ≠ cid → manager_start (manager_start st cid r1) cid r2 c = st c) := by
  have hset : ∀ (lm : ListenerM) (r : Option ReplayDict),
      set_replay lm r = {lm with replay := (r.map
        (fun d => ⟨mode_or_stored d.mode, d.replay_id_b64, d.since_minutes⟩))} := by
    intro lm r; cases r <;> rfl
  have hrun0 : ((st cid).getD {}).running = false := by
    rcases h with h | ⟨l, hl, hrun⟩
    · simp [h]
    · simp [hl, hrun]
  refine ⟨listener_start (set_replay ((st cid).getD {}) r1),
          set_replay (listener_start (set_replay ((st cid).getD {}) r1)) r2,
          ?_, ?_, ?_, ?_, ?_, ?_⟩
  · simp [manager_start, hset, hrun0]
  · have h1 : manager_start st cid r1 cid =
        some (listener_start (set_replay ((st cid).getD {}) r1)) := by
      simp [manager_start, hset, hrun0]
    simp [manager_start, h1, hset, hrun0, listener_start]
  · simp [listener_start, hset, hrun0]
  · rcases h with h | ⟨l, hl, hrun⟩
    · simp [h, listener_start, hset]
    · simp [hl, hrun, listener_start, hset]
  · exact hset _ r2
  · intro c hc
    simp [manager_start, hc]

/-- Witness for C8 from the empty registry. -/
theorem c8_idempotent_start_witness :
    ((fun _ => none : MgrState) 1 = none ∨
      ∃ l, (fun _ => none : MgrState) 1 = some l ∧ l.running = false) ∧
    ∃ l1 l2,
      manager_start (fun _ => none) 1 none 1 = some l1 ∧
      manager_start (manager_start (fun _ => none) 1 none) 1
        (some ⟨some "latest", none, none⟩) 1 = some l2 ∧
      l1.running = true ∧
      l1.spawnCount = (match (none : Option ListenerM) with
        | none => 0 | some l => l.spawnCount) + 1 ∧
      l2 = {l1 with replay := ((some ⟨some "latest", none, none⟩ : Option ReplayDict).map
        (fun d => ⟨mode_or_stored d.mode, d.replay_id_b64, d.since_minutes⟩))} ∧
      (∀ c, c ≠ 1 →
        manager_start (manager_start (fun _ => none) 1 none) 1
          (some ⟨some "latest", none, none⟩) c = none) :=
  ⟨Or.inl rfl,
    c8_idempotent_start (fun _ => none) 1 none (some ⟨some "latest", none, none⟩) (Or.inl rfl)⟩

/-- Unfolding equation: a 2xx attempt returns its status immediately. -/
theorem post_webhook_go_cons_ok (jit : Nat → ℚ) (o : Option Nat) (rest : List (Option Nat))
    (d : ℚ) (a l : Nat) (ho : attempt_ok o = true) :
    post_webhook_go jit (o :: rest) d a l = ⟨observe o l, a + 1, []⟩ := by
  cases rest <;> simp [post_webhook_go, ho]

/-- Unfolding equation: a failed final attempt ends the loop with the
observed status and no further sleep. -/
theorem post_webhook_go_single_fail (jit : Nat → ℚ) (o : Option Nat)
    (d : ℚ) (a l : Nat) (ho : attempt_ok o = false) :
    post_webhook_go jit [o] d a l = ⟨observe o l, a + 1, []⟩ := by
  simp [post_webhook_go, ho]

/-- Unfolding equation: a failed non-final attempt sleeps
`delay + jitter * 0.25` and retries with the delay doubled, capped at 30. -/
theorem post_webhook_go_cons_fail (jit : Nat → ℚ) (o : Option Nat) (rest : List (Option Nat))
    (d : ℚ) (a l : Nat) (ho : attempt_ok o = false) (hne : rest ≠ []) :
    post_webhook_go jit (o :: rest) d a l =
      ⟨(post_webhook_go jit rest (min (d * 2) 30) (a + 1) (observe o l)).status,
       (post_webhook_go jit rest (min (d * 2) 30) (a + 1) (observe o l)).attempts,
       (d + jit (a + 1) * (1 / 4)) ::
         (post_webhook_go jit rest (min (d * 2) 30) (a + 1) (observe o l)).sleeps⟩ := by
  cases rest with
  | nil => exact absurd rfl hne
  | cons q qs => simp [post_webhook_go, ho]

/-- The retry loop makes at most one attempt per entry of `outs`. -/
theorem post_webhook_go_attempts_le (jit : Nat → ℚ) :
    ∀ (outs : List (Option Nat)) (d : ℚ) (a l : Nat),
      (post_webhook_go jit outs d a l).attempts ≤ a + outs.length := by
  intro outs
  induction outs with
  | nil => intro d a l; simp [post_webhook_go]
  | cons o rest ih =>
      intro d a l
      by_cases h : attempt_ok o = true
      · rw [post_webhook_go_cons_ok jit o rest d a l h]
        simp
      · cases rest with
        | nil =>
            rw [post_webhook_go_single_fail jit o d a l (eq_false_of_ne_true h)]
            simp
        | cons q qs =>
            rw [post_webhook_go_cons_fail jit o (q :: qs) d a l
              (eq_false_of_ne_true h) (by simp)]
            have := ih (min (d * 2) 30) (a + 1) (observe o l)
            simp only [List.length_cons] at this ⊢
            omega

/-- When no attempt observes a 2xx status, the loop runs every attempt and
returns the last observed status. -/
theorem post_webhook_go_no_success (jit : Nat → ℚ) :
    ∀ (outs : List (Option Nat)) (d : ℚ) (a l : Nat),
      (∀ o ∈ outs, attempt_ok o = false) →
      (post_webhook_go jit outs d a l).attempts = a + outs.length ∧
      (post_webhook_go jit outs d a l).status = last_observed outs l := by
  intro outs
  induction outs with
  | nil => intro d a l _; simp [post_webhook_go, last_observed]
  | cons o rest ih =>
      intro d a l h
      have ho : attempt_ok o = false := h o (List.mem_cons_self o rest)
      have hrest : ∀ x ∈ rest, attempt_ok x = false :=
        fun x hx => h x (List.mem_cons_of_mem o hx)
      cases rest with
      | nil =>
          rw [post_webhook_go_single_fail jit o d a l ho]
          simp [last_observed]
      | cons q qs =>
          rw [post_webhook_go_cons_fail jit o (q :: qs) d a l ho (by simp)]
          have := ih (min (d * 2) 30) (a + 1) (observe o l) hrest
          rw [last_observed]
          exact ⟨by simp only [List.length_cons] at this ⊢; omega, this.2⟩

/-- The loop returns at the first attempt that observes a 2xx status: the
returned status is that attempt's, the attempt count stops there, and one
sleep was taken per preceding failed attempt. -/
theorem post_webhook_go_first_success (jit : Nat → ℚ) :
    ∀ (pre : List (Option Nat)) (s : Nat) (post : List (Option Nat)) (d : ℚ) (a l : Nat),
      is2xx s = true → (∀ o ∈ pre, attempt_ok o = false) →
      (post_webhook_go jit (pre ++ some s :: post) d a l).status = s ∧
      (post_webhook_go jit (pre ++ some s :: post) d a l).attempts = a + pre.length + 1 ∧
      (post_webhook_go jit (pre ++ some s :: post) d a l).sleeps.length = pre.length := by
  intro pre
  induction pre with
  | nil =>
      intro s post d a l hs _
      rw [List.nil_append, post_webhook_go_cons_ok jit (some s) post d a l hs]
      simp [observe]
  | cons o pre' ih =>
      intro s post d a l hs hpre
      have ho : attempt_ok o = false := hpre o (List.mem_cons_self o pre')
      have hpre' : ∀ x ∈ pre', attempt_ok x = false :=
        fun x hx => hpre x (List.mem_cons_of_mem o hx)
      have hih := ih s post (min (d * 2) 30) (a + 1) (observe o l) hs hpre'
      rw [List.cons_append,
        post_webhook_go_cons_fail jit o (pre' ++ some s :: post) d a l ho (by simp)]
      refine ⟨hih.1, ?_, ?_⟩
      · show (post_webhook_go jit (pre' ++ some s :: post) (min (d * 2) 30) (a + 1)
            (observe o l)).attempts = a + (o :: pre').length + 1
        rw [hih.2.1]
        simp only [List.length_cons]
        omega
      · show ((d + jit (a + 1) * (1 / 4)) :: (post_webhook_go jit (pre' ++ some s :: post)
            (min (d * 2) 30) (a + 1) (observe o l)).sleeps).length = (o :: pre').length
        simp [hih.2.2]

/-- Every sleep taken by the loop, started at base delay `base_delay k`,
lies in `[base_delay (k+i), base_delay (k+i) + 0.25)` at position `i`. -/
theorem post_webhook_go_sleep_bounds (jit : Nat → ℚ) (hj : ∀ n, 0 ≤ jit n ∧ jit n < 1) :
    ∀ (outs : List (Option Nat)) (k a l i : Nat) (x : ℚ),
      (post_webhook_go jit outs (base_delay k) a l).sleeps[i]? = some x →
      base_delay (k + i) ≤ x ∧ x < base_delay (k + i) + 1 / 4 := by
  intro outs
  induction outs with
  | nil => intro k a l i x hx; simp [post_webhook_go] at hx
  | cons o rest ih =>
      intro k a l i x hx
      by_cases ho : attempt_ok o = true
      · rw [post_webhook_go_cons_ok jit o rest (base_delay k) a l ho] at hx
        simp at hx
      · cases rest with
        | nil =>
            rw [post_webhook_go_single_fail jit o (base_delay k) a l
              (eq_false_of_ne_true ho)] at hx
            simp at hx
        | cons q qs =>
            rw [post_webhook_go_cons_fail jit o (q :: qs) (base_delay k) a l
              (eq_false_of_ne_true ho) (by simp)] at hx
            have hdel : min (base_delay k * 2) 30 = base_delay (k + 1) := rfl
            rw [hdel] at hx
            cases i with
            | zero =>
                rw [List.getElem?_cons_zero] at hx
                have hx' : base_delay k + jit (a + 1) * (1 / 4) = x := by
                  injection hx
                have h1 := (hj (a + 1)).1
                have h2 := (hj (a + 1)).2
                constructor
                · rw [Nat.add_zero, ← hx']
                  nlinarith
                · rw [Nat.add_zero, ← hx']
                  nlinarith
            | succ i' =>
                rw [List.getElem?_cons_succ] at hx
                have := ih (k + 1) (a + 1) (observe o l) i' x hx
                have hk : k + (i' + 1) = k + 1 + i' := by omega
                rw [hk]
                exact this

/-- `last_status` stays `0` when every attempt raised. -/
theorem last_observed_all_none :
    ∀ (outs : List (Option Nat)) (l : Nat), (∀ o ∈ outs, o = none) →
      last_observed outs l = l := by
  intro outs
  induction outs with
  | nil => intro l _; rfl
  | cons o rest ih =>
      intro l h
      have ho : o = none := h o (List.mem_cons_self o rest)
      have hr := ih (observe o l) (fun x hx => h x (List.mem_cons_of_mem o hx))
      rw [last_observed, hr, ho]
      rfl

/-- Claim C6: `_post_webhook` makes at most 3 attempts; it returns
immediately at the first attempt with a 2xx status; otherwise it returns
the status of the last attempt that produced a response, `0` when every
attempt raised; and each inter-attempt sleep is the current base delay plus
a jitter in `[0, 0.25)`, with the bases starting at 1 s and doubling with a
cap of 30 s. -/
theorem c6_webhook_dispatcher (jit : Nat → ℚ) (outs : List (Option Nat))
    (hlen : outs.length = 3) (hj : ∀ n, 0 ≤ jit n ∧ jit n < 1) :
    (post_webhook jit outs).attempts ≤ 3 ∧
    (∀ pre s post, outs = pre ++ some s :: post → is2xx s = true →
      (∀ o ∈ pre, attempt_ok o = false) →
      (post_webhook jit outs).status = s ∧
      (post_webhook jit outs).attempts = pre.length + 1) ∧
    ((∀ o ∈ outs, attempt_ok o = false) →
      (post_webhook jit outs).attempts = 3 ∧
      (post_webhook jit outs).status = last_observed outs 0) ∧
    ((∀ o ∈ outs, o = none) → (post_webhook jit outs).status = 0) ∧
    (∀ (i : Nat) (x : ℚ), (post_webhook jit outs).sleeps[i]? = some x →
      base_delay i ≤ x ∧ x < base_delay i + 1 / 4) := by
  refine ⟨?_, ?_, ?_, ?_, ?_⟩
  · have := post_webhook_go_attempts_le jit outs 1 0 0
    rw [hlen] at this
    exact this
  · intro pre s post heq hs hpre
    have h2 := post_webhook_go_first_success jit pre s post 1 0 0 hs hpre
    rw [← heq] at h2
    refine ⟨h2.1, ?_⟩
    show (post_webhook_go jit outs 1 0 0).attempts = pre.length + 1
    rw [h2.2.1]
    omega
  · intro hfail
    have := post_webhook_go_no_success jit outs 1 0 0 hfail
    rw [hlen] at this
    exact this
  · intro hnone
    have hfail : ∀ o ∈ outs, attempt_ok o = false := by
      intro o ho; rw [hnone o ho]; rfl
    have := (post_webhook_go_no_success jit outs 1 0 0 hfail).2
    rw [last_observed_all_none outs 0 hnone] at this
    exact this
  · intro i x hx
    have := post_webhook_go_sleep_bounds jit hj outs 0 0 0 i x hx
    simpa using this

/-- Witness for C6: first attempt 500, second raised, third 200 — the run
returns 200 after 3 attempts; the jitter hypothesis holds at `jit = 0`. -/
theorem c6_webhook_dispatcher_witness :
    ([some 500, none, some 200] : List (Option Nat)).length = 3 ∧
    (post_webhook (fun _ => 0) [some 500, none, some 200]).status = 200 ∧
    (post_webhook (fun _ => 0) [some 500, none, some 200]).attempts = 3 :=
  ⟨rfl,
    ((c6_webhook_dispatcher (fun _ => 0) [some 500, none, some 200] rfl
        (fun _ => ⟨le_refl 0, by norm_num⟩)).2.1 [some 500, none] 200 []
        rfl (by decide) (by decide)).1,
    by
      have h := ((c6_webhook_dispatcher (fun _ => 0) [some 500, none, some 200] rfl
        (fun _ => ⟨le_refl 0, by norm_num⟩)).2.1 [some 500, none] 200 []
        rfl (by decide) (by decide)).2
      simpa using h⟩

end FlashCDC
